import Mathlib

set_option maxHeartbeats 1000000

/-! Shallow embedding of the operating-hours evaluation logic of
`was_call_during_open_hours` in `src/lambda/package/lambda_function.py`
(lines 143-269) and of its duplicate in
`src/lambda_backfill/package/lambda_function.py` (lines 47-135).

Modelling choices:
* Python `datetime` values are modelled at one-second resolution. A naive
  datetime is a wall-clock reading (seconds since 1970-01-01 00:00 of its own
  calendar); an aware datetime is a wall-clock reading together with its UTC
  offset in seconds; the instant it denotes is `wall - offset`, and Python
  compares aware datetimes by that instant.
* A `pytz` timezone is modelled by its two offset functions: the offset as a
  function of the UTC instant (what `astimezone` uses, via `fromutc`) and the
  offset attached to a naive wall-clock reading by `localize` with its default
  `is_dst=False` (for ambiguous or nonexistent wall times pytz then picks the
  standard-time side).
* The timezone database (`pytz.timezone`) is a parameter
  `tzdb : String -> Option PyTz`; `none` models `UnknownTimeZoneError`.
* The remote config fetch (`get_hours_of_operation`) is an external
  collaborator; the evaluator receives its result as
  `Option HoursOfOperation`, with `none` for the falsy result that triggers
  the `Could not retrieve ...` ValueError.
* Exceptions are modelled with `Except`: `PyErr.valueError` for the typed
  `raise ValueError(...)` sites, `PyErr.attributeError attr` for the untyped
  `AttributeError` Python raises when an attribute `attr` is accessed on
  `None` (e.g. `None.isoformat()`).
* The backfill variant additionally coerces `str` timestamps with
  `fromisoformat`; the claims quantify only over datetime-or-missing
  timestamps, so the modelled input space is `Option PyDateTime` and that
  string-coercion branch is outside it.
* Logging (`print`), the `get_queue_name` lookup (used only for logging) and
  the unreachable second `if not queue_id` block at lines 170-182 (dead code:
  the first `if not queue_id` at line 150 already returned) are omitted.
-/

/-- A Python `datetime`: timezone-naive (a bare wall-clock reading, in seconds
since 1970-01-01 00:00 of its calendar) or timezone-aware (a wall-clock
reading plus its UTC offset in seconds). -/
inductive PyDateTime where
  | naive (wall : Int)
  | aware (wall : Int) (offset : Int)
deriving DecidableEq

/-- The UTC instant (seconds since the Unix epoch) denoted by an aware
wall/offset pair: Python compares aware datetimes by `wall - utcoffset`. -/
def instantOf (wall offset : Int) : Int := wall - offset

/-- A `pytz` timezone: `utcOffset` gives the UTC offset (seconds) in effect at
a given UTC instant (used by `astimezone`); `offsetOfWall` gives the offset
that `localize(naive, is_dst=False)` attaches to a given naive wall-clock
reading. -/
structure PyTz where
  utcOffset : Int → Int
  offsetOfWall : Int → Int

/-- `aware.astimezone(tz)`: keep the instant, re-express the wall clock in
`tz`. Returns the new (wall, offset) pair. -/
def astimezone (tz : PyTz) (wall offset : Int) : Int × Int :=
  let t := instantOf wall offset
  (t + tz.utcOffset t, tz.utcOffset t)

/-- `if initiation_timestamp.tzinfo is None: pytz.utc.localize(...)`: a naive
datetime is treated as UTC (offset 0); an aware one is kept as-is. -/
def utcIfNaive : PyDateTime → Int × Int
  | .naive w => (w, 0)
  | .aware w off => (w, off)

/-- The wall-clock reading of `initiation_timestamp.astimezone(timezone)`. -/
def localCallWall (tz : PyTz) (dt : PyDateTime) : Int :=
  (astimezone tz (utcIfNaive dt).1 (utcIfNaive dt).2).1

/-- The UTC offset of `initiation_timestamp.astimezone(timezone)`. -/
def localCallOffset (tz : PyTz) (dt : PyDateTime) : Int :=
  (astimezone tz (utcIfNaive dt).1 (utcIfNaive dt).2).2

/-- Day number (floor) of a wall-clock reading, 0 = 1970-01-01. -/
def dayIndex (wall : Int) : Int := Int.fdiv wall 86400

/-- Midnight (00:00:00) of the calendar day of a wall-clock reading. -/
def dayStart (wall : Int) : Int := 86400 * dayIndex wall

/-- `call_time.replace(hour=h, minute=m, second=0, microsecond=0)` on a
wall-clock reading: same calendar date, given time of day. -/
def replaceTime (wall : Int) (h m : Nat) : Int :=
  dayStart wall + 3600 * (h : Int) + 60 * (m : Int)

/-- `call_time.strftime('%A').upper()`: the uppercase English weekday name of
a wall-clock reading (1970-01-01 was a Thursday). -/
def dayNameOf (wall : Int) : String :=
  match ((dayIndex wall + 4).emod 7).toNat with
  | 0 => "SUNDAY"
  | 1 => "MONDAY"
  | 2 => "TUESDAY"
  | 3 => "WEDNESDAY"
  | 4 => "THURSDAY"
  | 5 => "FRIDAY"
  | _ => "SATURDAY"

/-- Civil date (year, month, day) of a day number (0 = 1970-01-01), by the
standard days-to-civil conversion. -/
def civilFromDays (z : Int) : Int × Nat × Nat :=
  let zShift := z + 719468
  let era := Int.fdiv zShift 146097
  let doe := (zShift - era * 146097).toNat
  let yoe := (doe - doe / 1460 + doe / 36524 - doe / 146096) / 365
  let doy := doe - (365 * yoe + yoe / 4 - yoe / 100)
  let mp := (5 * doy + 2) / 153
  let d := doy - (153 * mp + 2) / 5 + 1
  let m := if mp < 10 then mp + 3 else mp - 9
  (era * 400 + (yoe : Int) + (if m ≤ 2 then 1 else 0), m, d)

/-- Two-digit zero-padded decimal. -/
def pad2 (n : Nat) : String := if n < 10 then "0" ++ toString n else toString n

/-- Four-digit zero-padded decimal (Python pads years to four digits). -/
def pad4 (n : Nat) : String :=
  if n < 10 then "000" ++ toString n
  else if n < 100 then "00" ++ toString n
  else if n < 1000 then "0" ++ toString n
  else toString n

/-- The `±HH:MM` UTC-offset suffix of `datetime.isoformat()` for an aware
datetime whose offset is a whole number of minutes. -/
def offsetSuffix (off : Int) : String :=
  let sign := if off < 0 then "-" else "+"
  let a := off.natAbs
  sign ++ pad2 (a / 3600) ++ ":" ++ pad2 (a % 3600 / 60)

/-- `YYYY-MM-DDTHH:MM:SS` rendering of a wall-clock reading (microseconds are
zero in this model and are then omitted by Python's `isoformat`). -/
def wallClockString (wall : Int) : String :=
  let ymd := civilFromDays (dayIndex wall)
  let tod := (Int.emod wall 86400).toNat
  pad4 ymd.1.toNat ++ "-" ++ pad2 ymd.2.1 ++ "-" ++ pad2 ymd.2.2 ++ "T" ++
    pad2 (tod / 3600) ++ ":" ++ pad2 (tod % 3600 / 60) ++ ":" ++ pad2 (tod % 60)

/-- Python `datetime.isoformat()`: naive datetimes have no offset suffix,
aware ones carry `±HH:MM`. -/
def isoformat : PyDateTime → String
  | .naive w => wallClockString w
  | .aware w off => wallClockString w ++ offsetSuffix off

/-- An `entry['StartTime']` / `entry['EndTime']` value of the hours-of-operation
config: hour and minute fields. -/
structure TimeOfDayCfg where
  Hours : Nat
  Minutes : Nat
deriving DecidableEq

/-- One element of `hours_of_operation['Config']`. -/
structure DayEntry where
  Day : String
  StartTime : TimeOfDayCfg
  EndTime : TimeOfDayCfg
deriving DecidableEq

/-- The resolved `hours_of_operation` object: its `TimeZone` field (absent
modelled as `none`) and its `Config` list of day entries. -/
structure HoursOfOperation where
  TimeZone : Option String
  Config : List DayEntry
deriving DecidableEq

/-- The dict returned by `was_call_during_open_hours`: `during_hours` is
`None`/`True`/`False` (`none` models the spec's `unknown`), plus the timezone
name, the ISO-8601 local time string, and the optional `status` key that only
the abandoned-call branch adds. -/
structure HoursDecision where
  during_hours : Option Bool
  timezone : String
  local_time : String
  status : Option String
deriving DecidableEq

/-- A raised Python exception: a typed `ValueError(msg)`, or the untyped
`AttributeError` from accessing attribute `attr` on `None`. -/
inductive PyErr where
  | valueError (msg : String)
  | attributeError (attr : String)
deriving DecidableEq

/-- Python truthiness test `not x` for an optional string: `None` and the
empty string are falsy. -/
def pyFalsy : Option String → Bool
  | none => true
  | some s => s == ""

/-- Sentinel test at lines 216-219: start and end both exactly 00:00. -/
def isSentinel (e : DayEntry) : Bool :=
  e.StartTime.Hours == 0 && e.StartTime.Minutes == 0 &&
    e.EndTime.Hours == 0 && e.EndTime.Minutes == 0

/-- The naive wall-clock reading `call_time.replace(hour=start.h,
minute=start.m, second=0, microsecond=0).replace(tzinfo=None)`. -/
def startWallOf (cw : Int) (e : DayEntry) : Int :=
  replaceTime cw e.StartTime.Hours e.StartTime.Minutes

/-- Same as `startWallOf` for the entry's end time. -/
def endWallOf (cw : Int) (e : DayEntry) : Int :=
  replaceTime cw e.EndTime.Hours e.EndTime.Minutes

/-- The UTC instant of `timezone.localize(<start wall-clock>)`. -/
def startInstantOf (tz : PyTz) (cw : Int) (e : DayEntry) : Int :=
  instantOf (startWallOf cw e) (tz.offsetOfWall (startWallOf cw e))

/-- The UTC instant of `timezone.localize(<end wall-clock>)`. -/
def endInstantOf (tz : PyTz) (cw : Int) (e : DayEntry) : Int :=
  instantOf (endWallOf cw e) (tz.offsetOfWall (endWallOf cw e))

/-- The chained aware-datetime comparison `start_time <= call_time <= end_time`
at line 253, which Python performs on UTC instants. -/
def inInterval (tz : PyTz) (cw co : Int) (e : DayEntry) : Bool :=
  decide (startInstantOf tz cw e ≤ instantOf cw co ∧
    instantOf cw co ≤ endInstantOf tz cw e)

/-- The `for entry in hours_of_operation['Config']` loop of lines 213-266:
first entry matching the day name is tested for the 24/7 sentinel and then for
the inclusive interval; a non-matching or failing entry falls through to the
rest of the list; exhausting the list yields the closed decision. -/
def checkEntries (tz : PyTz) (timezone_str : String) (cw co : Int)
    (day_name : String) : List DayEntry → HoursDecision
  | [] => ⟨some false, timezone_str, isoformat (.aware cw co), none⟩
  | entry :: rest =>
    if entry.Day == day_name then
      if isSentinel entry then
        ⟨some true, timezone_str, isoformat (.aware cw co), none⟩
      else if inInterval tz cw co entry then
        ⟨some true, timezone_str, isoformat (.aware cw co), none⟩
      else
        checkEntries tz timezone_str cw co day_name rest
    else
      checkEntries tz timezone_str cw co day_name rest

/-- `was_call_during_open_hours` of `src/lambda/package/lambda_function.py`
lines 143-269, with the remote config fetch passed in as
`hours_of_operation` and the timezone database as `tzdb`. -/
def was_call_during_open_hours (tzdb : String → Option PyTz)
    (queue_id : Option String) (initiation_timestamp : Option PyDateTime)
    (initiation_method : String)
    (hours_of_operation : Option HoursOfOperation) :
    Except PyErr HoursDecision :=
  if pyFalsy queue_id then
    match initiation_timestamp with
    | none => .error (.attributeError "isoformat")
    | some ts => .ok ⟨none, "UTC", isoformat ts, some "ABANDONED"⟩
  else if initiation_method = "EXTERNAL_OUTBOUND" then
    match initiation_timestamp with
    | none => .error (.attributeError "isoformat")
    | some ts => .ok ⟨some true, "UTC", isoformat ts, none⟩
  else
    match hours_of_operation with
    | none =>
      .error (.valueError ("Could not retrieve hours of operation for queue "
        ++ queue_id.getD ""))
    | some hoo =>
      match initiation_timestamp with
      | none => .error (.valueError "Missing timestamp")
      | some ts =>
        if pyFalsy hoo.TimeZone then
          .error (.valueError ("No timezone specified for queue "
            ++ queue_id.getD ""))
        else
          let timezone_str := hoo.TimeZone.getD ""
          match tzdb timezone_str with
          | none =>
            .error (.valueError ("Invalid timezone " ++ timezone_str
              ++ " for queue " ++ queue_id.getD "" ++ ": " ++ timezone_str))
          | some tz =>
            let cw := localCallWall tz ts
            let co := localCallOffset tz ts
            .ok (checkEntries tz timezone_str cw co (dayNameOf cw) hoo.Config)

/-- `was_call_during_open_hours` of
`src/lambda_backfill/package/lambda_function.py` lines 47-135: same branches,
but no `Missing timestamp` check — a missing timestamp in the queued path hits
`initiation_timestamp.tzinfo` and raises `AttributeError` — and the
timezone-field check precedes the timestamp handling. -/
def was_call_during_open_hours_backfill (tzdb : String → Option PyTz)
    (queue_id : Option String) (initiation_timestamp : Option PyDateTime)
    (initiation_method : String)
    (hours_of_operation : Option HoursOfOperation) :
    Except PyErr HoursDecision :=
  if pyFalsy queue_id then
    match initiation_timestamp with
    | none => .error (.attributeError "isoformat")
    | some ts => .ok ⟨none, "UTC", isoformat ts, some "ABANDONED"⟩
  else if initiation_method = "EXTERNAL_OUTBOUND" then
    match initiation_timestamp with
    | none => .error (.attributeError "isoformat")
    | some ts => .ok ⟨some true, "UTC", isoformat ts, none⟩
  else
    match hours_of_operation with
    | none =>
      .error (.valueError ("Could not retrieve hours of operation for queue "
        ++ queue_id.getD ""))
    | some hoo =>
      if pyFalsy hoo.TimeZone then
        .error (.valueError ("No timezone specified for queue "
          ++ queue_id.getD ""))
      else
        let timezone_str := hoo.TimeZone.getD ""
        match tzdb timezone_str with
        | none =>
          .error (.valueError ("Invalid timezone " ++ timezone_str
            ++ " for queue " ++ queue_id.getD "" ++ ": " ++ timezone_str))
        | some tz =>
          match initiation_timestamp with
          | none => .error (.attributeError "tzinfo")
          | some ts =>
            let cw := localCallWall tz ts
            let co := localCallOffset tz ts
            .ok (checkEntries tz timezone_str cw co (dayNameOf cw) hoo.Config)

/-- IANA America/Chicago for the year 2024 (the year the concrete claims
use): UTC-6 standard, UTC-5 daylight; DST ran from 2024-03-10T08:00:00Z to
2024-11-03T07:00:00Z. `offsetOfWall` follows pytz `localize` with
`is_dst=False`: daylight offset exactly for wall clocks from 2024-03-10 03:00
up to (excluding) 2024-11-03 01:00, the standard side being chosen for the
ambiguous fall-back hour and for the nonexistent spring-forward hour. -/
def americaChicago2024 : PyTz where
  utcOffset t := if 1710057600 ≤ t ∧ t < 1730617200 then -18000 else -21600
  offsetOfWall w := if 1710039600 ≤ w ∧ w < 1730595600 then -18000 else -21600

/-- A one-zone timezone database for the concrete examples. -/
def exampleTzdb : String → Option PyTz := fun s =>
  if s = "America/Chicago" then some americaChicago2024 else none

/-- The spec's example config: America/Chicago, Monday 09:00-17:00. -/
def mondayNineToFive : HoursOfOperation where
  TimeZone := some "America/Chicago"
  Config := [⟨"MONDAY", ⟨9, 0⟩, ⟨17, 0⟩⟩]

/-- An overnight-style entry (start later in the day than end):
America/Chicago, Sunday 03:00-02:30. -/
def sundayOvernight : HoursOfOperation where
  TimeZone := some "America/Chicago"
  Config := [⟨"SUNDAY", ⟨3, 0⟩, ⟨2, 30⟩⟩]

/-- If every config entry matching the day name is non-sentinel and fails the
interval comparison, the day loop exhausts the list and yields the closed
decision. -/
theorem checkEntries_all_fail (tz : PyTz) (tzs : String) (cw co : Int)
    (day : String) (l : List DayEntry)
    (h : ∀ e ∈ l, e.Day = day →
      isSentinel e = false ∧ inInterval tz cw co e = false) :
    checkEntries tz tzs cw co day l
      = ⟨some false, tzs, isoformat (.aware cw co), none⟩ := by
  induction l with
  | nil => rfl
  | cons e rest ih =>
    have ih' := ih (fun x hx hxd => h x (List.mem_cons_of_mem _ hx) hxd)
    by_cases hd : e.Day = day
    · obtain ⟨hs, hi⟩ := h e (List.mem_cons_self e rest) hd
      simp [checkEntries, beq_iff_eq, hd, hs, hi, ih']
    · simp [checkEntries, beq_iff_eq, hd, ih']

/-- If some config entry matches the day name and every matching entry is a
sentinel or passes the interval comparison, the day loop returns the open
decision. -/
theorem checkEntries_finds (tz : PyTz) (tzs : String) (cw co : Int)
    (day : String) (l : List DayEntry)
    (hex : ∃ e ∈ l, e.Day = day)
    (hall : ∀ e ∈ l, e.Day = day →
      isSentinel e = true ∨ inInterval tz cw co e = true) :
    checkEntries tz tzs cw co day l
      = ⟨some true, tzs, isoformat (.aware cw co), none⟩ := by
  induction l with
  | nil =>
    obtain ⟨e, he, _⟩ := hex
    exact absurd he (List.not_mem_nil e)
  | cons e rest ih =>
    by_cases hd : e.Day = day
    · rcases hall e (List.mem_cons_self e rest) hd with hs | hi
      · simp [checkEntries, beq_iff_eq, hd, hs]
      · rcases Bool.eq_false_or_eq_true (isSentinel e) with hs | hs
        · simp [checkEntries, beq_iff_eq, hd, hs]
        · simp [checkEntries, beq_iff_eq, hd, hs, hi]
    · have hex' : ∃ x ∈ rest, x.Day = day := by
        obtain ⟨x, hx, hxd⟩ := hex
        rcases List.mem_cons.mp hx with rfl | hx'
        · exact absurd hxd hd
        · exact ⟨x, hx', hxd⟩
      have ih' := ih hex' (fun x hx hxd => hall x (List.mem_cons_of_mem _ hx) hxd)
      simp [checkEntries, beq_iff_eq, hd, ih']

/-- The day loop always produces a definite `during_hours` boolean (never the
`None` reserved for the abandoned-call branch). -/
theorem checkEntries_during_hours_isSome (tz : PyTz) (tzs : String)
    (cw co : Int) (day : String) (l : List DayEntry) :
    ∃ b, (checkEntries tz tzs cw co day l).during_hours = some b := by
  induction l with
  | nil => exact ⟨false, rfl⟩
  | cons e rest ih =>
    obtain ⟨b, hb⟩ := ih
    rcases Bool.eq_false_or_eq_true (e.Day == day) with hd | hd
    · rcases Bool.eq_false_or_eq_true (isSentinel e) with hs | hs
      · exact ⟨true, by simp [checkEntries, hd, hs]⟩
      · rcases Bool.eq_false_or_eq_true (inInterval tz cw co e) with hi | hi
        · exact ⟨true, by simp [checkEntries, hd, hs, hi]⟩
        · exact ⟨b, by simp [checkEntries, hd, hs, hi, hb]⟩
    · exact ⟨b, by simp [checkEntries, hd, hb]⟩

/-- On the queued, non-outbound path with a resolved config, a non-empty
timezone name known to the database, and a present timestamp, the evaluator
reduces to the day loop over the config entries. -/
theorem eval_queued (tzdb : String → Option PyTz) (q method : String)
    (dt : PyDateTime) (tzs : String) (cfg : List DayEntry) (tz : PyTz)
    (hq : q ≠ "") (hm : method ≠ "EXTERNAL_OUTBOUND") (htzs : tzs ≠ "")
    (hdb : tzdb tzs = some tz) :
    was_call_during_open_hours tzdb (some q) (some dt) method
        (some ⟨some tzs, cfg⟩)
      = .ok (checkEntries tz tzs (localCallWall tz dt) (localCallOffset tz dt)
          (dayNameOf (localCallWall tz dt)) cfg) := by
  simp [was_call_during_open_hours, pyFalsy, hq, hm, htzs, hdb]

/-- C2: for every call context whose queueId is absent or null, the evaluator
returns duringHours = unknown (modelled as `none`), timezone `"UTC"` and the
initiation timestamp rendered as-is, for every initiation method, every
timestamp value, every resolved config and every timezone database — so the
result does not depend on any remote lookup. -/
theorem no_queue_returns_unknown (tzdb : String → Option PyTz)
    (initiation_method : String) (hoo : Option HoursOfOperation)
    (dt : PyDateTime) :
    was_call_during_open_hours tzdb none (some dt) initiation_method hoo
      = .ok ⟨none, "UTC", isoformat dt, some "ABANDONED"⟩ := rfl

/-- C3: for every call context with a truthy (non-null, non-empty) queueId and
initiationMethod EXTERNAL_OUTBOUND, the evaluator returns duringHours = true,
timezone `"UTC"` and the initiation timestamp rendered as-is, for every
resolved config and every timezone database — the queue's configured hours
are never consulted. -/
theorem outbound_always_during (tzdb : String → Option PyTz) (q : String)
    (dt : PyDateTime) (hoo : Option HoursOfOperation) (hq : q ≠ "") :
    was_call_during_open_hours tzdb (some q) (some dt) "EXTERNAL_OUTBOUND" hoo
      = .ok ⟨some true, "UTC", isoformat dt, none⟩ := by
  simp [was_call_during_open_hours, pyFalsy, hq]

/-- Witness for C3 at a concrete outbound contact. -/
theorem outbound_always_during_witness :
    was_call_during_open_hours exampleTzdb (some "queue-1")
        (some (.aware 1731337200 0)) "EXTERNAL_OUTBOUND" (some sundayOvernight)
      = .ok ⟨some true, "UTC", "2024-11-11T15:00:00+00:00", none⟩ := by
  rw [outbound_always_during exampleTzdb "queue-1" (.aware 1731337200 0)
    (some sundayOvernight) (by decide)]
  rfl

/-- C7: with config America/Chicago, MONDAY 09:00-17:00, a queued non-outbound
call at 2024-11-11T15:00:00Z yields duringHours = true with localTime
2024-11-11T09:00:00-06:00 (standard-time offset, DST having ended); a call at
2024-11-11T22:30:00Z (16:30 local) yields true; a call at 2024-11-11T23:30:00Z
(17:30 local) yields false. -/
theorem chicago_monday_examples :
    was_call_during_open_hours exampleTzdb (some "q1")
        (some (.aware 1731337200 0)) "INBOUND" (some mondayNineToFive)
      = .ok ⟨some true, "America/Chicago", "2024-11-11T09:00:00-06:00", none⟩
    ∧ was_call_during_open_hours exampleTzdb (some "q1")
        (some (.aware 1731364200 0)) "INBOUND" (some mondayNineToFive)
      = .ok ⟨some true, "America/Chicago", "2024-11-11T16:30:00-06:00", none⟩
    ∧ was_call_during_open_hours exampleTzdb (some "q1")
        (some (.aware 1731367800 0)) "INBOUND" (some mondayNineToFive)
      = .ok ⟨some false, "America/Chicago", "2024-11-11T17:30:00-06:00", none⟩ :=
  ⟨rfl, rfl, rfl⟩

/-- C8: for every queue id, timezone-aware timestamp, initiation method and
identically resolved config and timezone database, the duplicated
implementations in `src/lambda/package/lambda_function.py` and
`src/lambda_backfill/package/lambda_function.py` return the same decision and
fail under the same conditions. -/
theorem lambda_backfill_agree (tzdb : String → Option PyTz)
    (queue_id : Option String) (w off : Int) (initiation_method : String)
    (hoo : Option HoursOfOperation) :
    was_call_during_open_hours tzdb queue_id (some (.aware w off))
        initiation_method hoo
      = was_call_during_open_hours_backfill tzdb queue_id
          (some (.aware w off)) initiation_method hoo := by
  cases hoo <;> rfl

/-- Counterexample to C9: the overnight entry SUNDAY 03:00-02:30 in
America/Chicago (start strictly later in the day than end, not the sentinel)
classifies the call at 2024-03-10T08:15:00Z — local Sunday 03:15, on the
spring-forward date — as DURING hours: the nonexistent wall time 02:30 is
localized with the standard offset (UTC-6, instant 08:30Z) while 03:00 is
daylight time (instant 08:00Z), so the localized interval is non-empty and
contains the call instant, contradicting the claim that duringHours is false
for every call time on such a day. -/
theorem overnight_entry_counterexample :
    was_call_during_open_hours exampleTzdb (some "q1")
        (some (.aware 1710058500 0)) "INBOUND" (some sundayOvernight)
      = .ok ⟨some true, "America/Chicago", "2024-03-10T03:15:00-05:00", none⟩ :=
  rfl

/-- C1: for a contact with a truthy queueId, a non-EXTERNAL_OUTBOUND
initiation method, a present timestamp, and a resolved config whose entry for
the local weekday of the call exists, is unique for that day name and is not
the 00:00/00:00 sentinel, the evaluator answers duringHours = true exactly
when start ≤ localCallTime ≤ end (inclusive on both boundaries), where
localCallTime is the initiation instant converted to the configured timezone
(naive timestamps being treated as UTC first) and start/end are the entry's
hour/minute fields placed on localCallTime's own calendar date and localized
with the daylight-saving offset in effect at that local date. -/
theorem interval_decides_during_hours (tzdb : String → Option PyTz)
    (q method : String) (dt : PyDateTime) (tzs : String)
    (cfg : List DayEntry) (tz : PyTz) (entry : DayEntry)
    (hq : q ≠ "") (hm : method ≠ "EXTERNAL_OUTBOUND") (htzs : tzs ≠ "")
    (hdb : tzdb tzs = some tz)
    (hmem : entry ∈ cfg)
    (hday : entry.Day = dayNameOf (localCallWall tz dt))
    (huniq : ∀ e ∈ cfg, e.Day = dayNameOf (localCallWall tz dt) → e = entry)
    (hsent : isSentinel entry = false) :
    (was_call_during_open_hours tzdb (some q) (some dt) method
        (some ⟨some tzs, cfg⟩)
      = .ok ⟨some true, tzs,
          isoformat (.aware (localCallWall tz dt) (localCallOffset tz dt)),
          none⟩)
    ↔ (startInstantOf tz (localCallWall tz dt) entry
          ≤ instantOf (localCallWall tz dt) (localCallOffset tz dt)
        ∧ instantOf (localCallWall tz dt) (localCallOffset tz dt)
          ≤ endInstantOf tz (localCallWall tz dt) entry) := by
  rw [eval_queued tzdb q method dt tzs cfg tz hq hm htzs hdb]
  rcases Bool.eq_false_or_eq_true
      (inInterval tz (localCallWall tz dt) (localCallOffset tz dt) entry)
    with hI | hI
  · rw [checkEntries_finds tz tzs _ _ _ cfg ⟨entry, hmem, hday⟩
      (fun e he hd => by rw [huniq e he hd]; exact Or.inr hI)]
    exact iff_of_true rfl (of_decide_eq_true (by simpa [inInterval] using hI))
  · rw [checkEntries_all_fail tz tzs _ _ _ cfg
      (fun e he hd => by rw [huniq e he hd]; exact ⟨hsent, hI⟩)]
    refine iff_of_false (by simp) ?_
    simpa [inInterval, decide_eq_false_iff_not] using hI

/-- C4: on the queued, non-outbound path, if the config's entries for the
call's local weekday all carry the 00:00/00:00 sentinel (and at least one
exists), the evaluator answers duringHours = true for that call, skipping the
interval comparison, with the configured timezone and the converted local
call time. -/
theorem sentinel_day_always_open (tzdb : String → Option PyTz)
    (q method : String) (dt : PyDateTime) (tzs : String)
    (cfg : List DayEntry) (tz : PyTz)
    (hq : q ≠ "") (hm : method ≠ "EXTERNAL_OUTBOUND") (htzs : tzs ≠ "")
    (hdb : tzdb tzs = some tz)
    (hex : ∃ e ∈ cfg, e.Day = dayNameOf (localCallWall tz dt))
    (hall : ∀ e ∈ cfg, e.Day = dayNameOf (localCallWall tz dt) →
      isSentinel e = true) :
    was_call_during_open_hours tzdb (some q) (some dt) method
        (some ⟨some tzs, cfg⟩)
      = .ok ⟨some true, tzs,
          isoformat (.aware (localCallWall tz dt) (localCallOffset tz dt)),
          none⟩ := by
  rw [eval_queued tzdb q method dt tzs cfg tz hq hm htzs hdb,
    checkEntries_finds tz tzs _ _ _ cfg hex
      (fun e he hd => Or.inl (hall e he hd))]

/-- C5: on the queued, non-outbound path, if the resolved config defines no
entry for the call's local weekday, the evaluator answers duringHours = false,
still carrying the configured timezone and the converted local call time
rendered in ISO-8601 with offset. -/
theorem missing_day_entry_closed (tzdb : String → Option PyTz)
    (q method : String) (dt : PyDateTime) (tzs : String)
    (cfg : List DayEntry) (tz : PyTz)
    (hq : q ≠ "") (hm : method ≠ "EXTERNAL_OUTBOUND") (htzs : tzs ≠ "")
    (hdb : tzdb tzs = some tz)
    (hnone : ∀ e ∈ cfg, e.Day ≠ dayNameOf (localCallWall tz dt)) :
    was_call_during_open_hours tzdb (some q) (some dt) method
        (some ⟨some tzs, cfg⟩)
      = .ok ⟨some false, tzs,
          isoformat (.aware (localCallWall tz dt) (localCallOffset tz dt)),
          none⟩ := by
  rw [eval_queued tzdb q method dt tzs cfg tz hq hm htzs hdb,
    checkEntries_all_fail tz tzs _ _ _ cfg
      (fun e he hd => absurd hd (hnone e he))]

/-- C9 (amended): on the queued, non-outbound path, if every config entry for
the call's local weekday has a start time strictly later in the day than its
end time AND the localize offset at the start wall time exceeds the localize
offset at the end wall time by less than the wall-clock gap between them (as
holds in particular whenever both boundaries carry the same UTC offset, i.e.
on any day without a daylight-saving transition), then the localized start
instant is strictly after the localized end instant, the inclusive comparison
can never hold, and the evaluator answers duringHours = false. Without the
offset proviso the claim fails on a spring-forward date (see the
counterexample). -/
theorem overnight_entry_closed (tzdb : String → Option PyTz)
    (q method : String) (dt : PyDateTime) (tzs : String)
    (cfg : List DayEntry) (tz : PyTz)
    (hq : q ≠ "") (hm : method ≠ "EXTERNAL_OUTBOUND") (htzs : tzs ≠ "")
    (hdb : tzdb tzs = some tz)
    (hall : ∀ e ∈ cfg, e.Day = dayNameOf (localCallWall tz dt) →
      (60 * e.EndTime.Hours + e.EndTime.Minutes
          < 60 * e.StartTime.Hours + e.StartTime.Minutes
        ∧ tz.offsetOfWall (startWallOf (localCallWall tz dt) e)
            - tz.offsetOfWall (endWallOf (localCallWall tz dt) e)
          < startWallOf (localCallWall tz dt) e
            - endWallOf (localCallWall tz dt) e)) :
    was_call_during_open_hours tzdb (some q) (some dt) method
        (some ⟨some tzs, cfg⟩)
      = .ok ⟨some false, tzs,
          isoformat (.aware (localCallWall tz dt) (localCallOffset tz dt)),
          none⟩ := by
  rw [eval_queued tzdb q method dt tzs cfg tz hq hm htzs hdb]
  rw [checkEntries_all_fail tz tzs _ _ _ cfg ?_]
  intro e he hd
  obtain ⟨hlt, hoff⟩ := hall e he hd
  constructor
  · rcases Bool.eq_false_or_eq_true (isSentinel e) with hs | hs
    · exfalso
      simp only [isSentinel, Bool.and_eq_true, beq_iff_eq] at hs
      omega
    · exact hs
  · simp only [inInterval, decide_eq_false_iff_not]
    rintro ⟨h1, h2⟩
    have hrev : endInstantOf tz (localCallWall tz dt) e
        < startInstantOf tz (localCallWall tz dt) e := by
      simp only [startInstantOf, endInstantOf, instantOf]
      omega
    omega

/-- C6: on the queued, non-outbound path the evaluator fails — with a typed
ValueError and no decision — exactly when the config cannot be resolved, the
config's timezone field is missing (Python-falsy), the initiation timestamp
is missing, or the configured timezone name does not resolve in the timezone
database; when none of those hold it returns a decision with a definite
duringHours boolean (no failure is silently defaulted); and when only the
timezone name fails to resolve, the error message carries both the queue id
and the zone string. -/
theorem typed_resolution_failures (tzdb : String → Option PyTz)
    (q method : String) (ts : Option PyDateTime)
    (hoo : Option HoursOfOperation)
    (tzdb2 : String → Option PyTz) (q2 method2 tzs2 : String)
    (cfg2 : List DayEntry) (dt2 : PyDateTime)
    (hq : q ≠ "") (hm : method ≠ "EXTERNAL_OUTBOUND")
    (hq2 : q2 ≠ "") (hm2 : method2 ≠ "EXTERNAL_OUTBOUND") (htzs2 : tzs2 ≠ "")
    (hdb2 : tzdb2 tzs2 = none) :
    ((∃ msg, was_call_during_open_hours tzdb (some q) ts method hoo
        = .error (.valueError msg))
      ↔ (hoo = none ∨ ts = none
          ∨ ∃ h, hoo = some h ∧ (pyFalsy h.TimeZone = true
              ∨ tzdb (h.TimeZone.getD "") = none)))
    ∧ ((hoo ≠ none ∧ ts ≠ none
        ∧ ∀ h, hoo = some h → pyFalsy h.TimeZone = false
            ∧ tzdb (h.TimeZone.getD "") ≠ none) →
        ∃ d b, was_call_during_open_hours tzdb (some q) ts method hoo = .ok d
          ∧ d.during_hours = some b)
    ∧ (was_call_during_open_hours tzdb2 (some q2) (some dt2) method2
          (some ⟨some tzs2, cfg2⟩)
        = .error (.valueError ("Invalid timezone " ++ tzs2 ++ " for queue "
            ++ q2 ++ ": " ++ tzs2))) := by
  have hqf : pyFalsy (some q) = false := by simp [pyFalsy, hq]
  have hqf2 : pyFalsy (some q2) = false := by simp [pyFalsy, hq2]
  have htf2 : pyFalsy (some tzs2) = false := by simp [pyFalsy, htzs2]
  refine ⟨?_, ?_, ?_⟩
  · cases hoo with
    | none => simp [was_call_during_open_hours, hqf, hm]
    | some h =>
      cases ts with
      | none => simp [was_call_during_open_hours, hqf, hm]
      | some dt =>
        rcases Bool.eq_false_or_eq_true (pyFalsy h.TimeZone) with hf | hf
        · simp [was_call_during_open_hours, hqf, hm, hf]
        · cases hdb : tzdb (h.TimeZone.getD "") with
          | none => simp [was_call_during_open_hours, hqf, hm, hf, hdb]
          | some tz => simp [was_call_during_open_hours, hqf, hm, hf, hdb]
  · rintro ⟨h1, h2, h3⟩
    cases hoo with
    | none => exact absurd rfl h1
    | some h =>
      cases ts with
      | none => exact absurd rfl h2
      | some dt =>
        obtain ⟨hf, hdbne⟩ := h3 h rfl
        cases hdb : tzdb (h.TimeZone.getD "") with
        | none => exact absurd hdb hdbne
        | some tz =>
          obtain ⟨b, hb⟩ := checkEntries_during_hours_isSome tz
            (h.TimeZone.getD "") (localCallWall tz dt) (localCallOffset tz dt)
            (dayNameOf (localCallWall tz dt)) h.Config
          exact ⟨_, b, by simp [was_call_during_open_hours, hqf, hm, hf, hdb], hb⟩
  · simp [was_call_during_open_hours, hqf2, hm2, htf2, hdb2]

/-- C10: a call context with a missing (None) initiation timestamp that takes
the no-queue branch or the outbound branch does not get a decision and does
not get the typed missing-timestamp ValueError: both implementations crash
with the untyped AttributeError from `None.isoformat()`, because the
lambda's timestamp check only runs after config resolution in the queued path
— and the backfill variant has no missing-timestamp check at all, so on its
queued path a missing timestamp reaches `None.tzinfo` and also raises an
untyped AttributeError. -/
theorem missing_timestamp_crashes (tzdb tzdb2 : String → Option PyTz)
    (queue_id : Option String) (method method2 : String)
    (hoo : Option HoursOfOperation) (q2 tzs2 : String)
    (cfg2 : List DayEntry) (tz2 : PyTz)
    (hbranch : queue_id = none
      ∨ (pyFalsy queue_id = false ∧ method = "EXTERNAL_OUTBOUND"))
    (hq2 : q2 ≠ "") (hm2 : method2 ≠ "EXTERNAL_OUTBOUND") (htzs2 : tzs2 ≠ "")
    (hdb2 : tzdb2 tzs2 = some tz2) :
    was_call_during_open_hours tzdb queue_id none method hoo
      = .error (.attributeError "isoformat")
    ∧ was_call_during_open_hours_backfill tzdb queue_id none method hoo
      = .error (.attributeError "isoformat")
    ∧ was_call_during_open_hours_backfill tzdb2 (some q2) none method2
        (some ⟨some tzs2, cfg2⟩)
      = .error (.attributeError "tzinfo") := by
  refine ⟨?_, ?_, ?_⟩
  · rcases hbranch with rfl | ⟨hf, rfl⟩
    · rfl
    · simp [was_call_during_open_hours, hf]
  · rcases hbranch with rfl | ⟨hf, rfl⟩
    · rfl
    · simp [was_call_during_open_hours_backfill, hf]
  · simp [was_call_during_open_hours_backfill, pyFalsy, hq2, hm2, htzs2, hdb2]

/-- Witness for C1 at the spec's Monday 09:00-17:00 Chicago config and the
2024-11-11T15:00:00Z call. -/
theorem interval_decides_during_hours_witness :
    (was_call_during_open_hours exampleTzdb (some "queue-1")
        (some (.aware 1731337200 0)) "INBOUND" (some mondayNineToFive)
      = .ok ⟨some true, "America/Chicago",
          isoformat (.aware
            (localCallWall americaChicago2024 (.aware 1731337200 0))
            (localCallOffset americaChicago2024 (.aware 1731337200 0))),
          none⟩)
    ↔ (startInstantOf americaChicago2024
          (localCallWall americaChicago2024 (.aware 1731337200 0))
          ⟨"MONDAY", ⟨9, 0⟩, ⟨17, 0⟩⟩
        ≤ instantOf (localCallWall americaChicago2024 (.aware 1731337200 0))
            (localCallOffset americaChicago2024 (.aware 1731337200 0))
      ∧ instantOf (localCallWall americaChicago2024 (.aware 1731337200 0))
            (localCallOffset americaChicago2024 (.aware 1731337200 0))
        ≤ endInstantOf americaChicago2024
            (localCallWall americaChicago2024 (.aware 1731337200 0))
            ⟨"MONDAY", ⟨9, 0⟩, ⟨17, 0⟩⟩) :=
  interval_decides_during_hours exampleTzdb "queue-1" "INBOUND"
    (.aware 1731337200 0) "America/Chicago" [⟨"MONDAY", ⟨9, 0⟩, ⟨17, 0⟩⟩]
    americaChicago2024 ⟨"MONDAY", ⟨9, 0⟩, ⟨17, 0⟩⟩
    (by decide) (by decide) (by decide) rfl
    (List.mem_singleton.mpr rfl) (by decide)
    (fun e he _ => List.mem_singleton.mp he) (by decide)

/-- Witness for C4 at a Monday 00:00-00:00 sentinel entry and a Monday call. -/
theorem sentinel_day_always_open_witness :
    was_call_during_open_hours exampleTzdb (some "queue-1")
        (some (.aware 1731337200 0)) "INBOUND"
        (some ⟨some "America/Chicago", [⟨"MONDAY", ⟨0, 0⟩, ⟨0, 0⟩⟩]⟩)
      = .ok ⟨some true, "America/Chicago",
          isoformat (.aware
            (localCallWall americaChicago2024 (.aware 1731337200 0))
            (localCallOffset americaChicago2024 (.aware 1731337200 0))),
          none⟩ :=
  sentinel_day_always_open exampleTzdb "queue-1" "INBOUND"
    (.aware 1731337200 0) "America/Chicago" [⟨"MONDAY", ⟨0, 0⟩, ⟨0, 0⟩⟩]
    americaChicago2024 (by decide) (by decide) (by decide) rfl
    ⟨⟨"MONDAY", ⟨0, 0⟩, ⟨0, 0⟩⟩, List.mem_singleton.mpr rfl, by decide⟩
    (fun e he _ => by rw [List.mem_singleton.mp he]; decide)

/-- Witness for C5: config defines only MONDAY, call is on a Sunday. -/
theorem missing_day_entry_closed_witness :
    was_call_during_open_hours exampleTzdb (some "queue-1")
        (some (.aware 1710058500 0)) "INBOUND" (some mondayNineToFive)
      = .ok ⟨some false, "America/Chicago",
          isoformat (.aware
            (localCallWall americaChicago2024 (.aware 1710058500 0))
            (localCallOffset americaChicago2024 (.aware 1710058500 0))),
          none⟩ :=
  missing_day_entry_closed exampleTzdb "queue-1" "INBOUND"
    (.aware 1710058500 0) "America/Chicago" [⟨"MONDAY", ⟨9, 0⟩, ⟨17, 0⟩⟩]
    americaChicago2024 (by decide) (by decide) (by decide) rfl
    (fun e he => by rw [List.mem_singleton.mp he]; decide)

/-- Witness for the amended C9: the same overnight SUNDAY 03:00-02:30 entry on
2024-03-17 (a Sunday without a DST transition, both boundaries daylight
time), call at 08:15:00Z, is decided closed. -/
theorem overnight_entry_closed_witness :
    was_call_during_open_hours exampleTzdb (some "queue-1")
        (some (.aware 1710663300 0)) "INBOUND" (some sundayOvernight)
      = .ok ⟨some false, "America/Chicago",
          isoformat (.aware
            (localCallWall americaChicago2024 (.aware 1710663300 0))
            (localCallOffset americaChicago2024 (.aware 1710663300 0))),
          none⟩ :=
  overnight_entry_closed exampleTzdb "queue-1" "INBOUND"
    (.aware 1710663300 0) "America/Chicago" [⟨"SUNDAY", ⟨3, 0⟩, ⟨2, 30⟩⟩]
    americaChicago2024 (by decide) (by decide) (by decide) rfl
    (fun e he _ => by rw [List.mem_singleton.mp he]; exact ⟨by decide, by decide⟩)

/-- Witness for C6 with an unresolvable zone name Mars/Nowhere. -/
theorem typed_resolution_failures_witness :
    ((∃ msg, was_call_during_open_hours exampleTzdb (some "queue-1")
        (some (.aware 1731337200 0)) "INBOUND"
        (some ⟨some "Mars/Nowhere", []⟩)
        = .error (.valueError msg))
      ↔ ((some ⟨some "Mars/Nowhere", []⟩ : Option HoursOfOperation) = none
          ∨ (some (.aware 1731337200 0) : Option PyDateTime) = none
          ∨ ∃ h, (some ⟨some "Mars/Nowhere", []⟩ : Option HoursOfOperation)
              = some h
            ∧ (pyFalsy h.TimeZone = true
              ∨ exampleTzdb (h.TimeZone.getD "") = none)))
    ∧ (((some ⟨some "Mars/Nowhere", []⟩ : Option HoursOfOperation) ≠ none
        ∧ (some (.aware 1731337200 0) : Option PyDateTime) ≠ none
        ∧ ∀ h, (some ⟨some "Mars/Nowhere", []⟩ : Option HoursOfOperation)
            = some h → pyFalsy h.TimeZone = false
          ∧ exampleTzdb (h.TimeZone.getD "") ≠ none) →
        ∃ d b, was_call_during_open_hours exampleTzdb (some "queue-1")
          (some (.aware 1731337200 0)) "INBOUND"
          (some ⟨some "Mars/Nowhere", []⟩) = .ok d
          ∧ d.during_hours = some b)
    ∧ (was_call_during_open_hours exampleTzdb (some "queue-2")
          (some (.aware 0 0)) "INBOUND" (some ⟨some "Mars/Nowhere", []⟩)
        = .error (.valueError ("Invalid timezone " ++ "Mars/Nowhere"
            ++ " for queue " ++ "queue-2" ++ ": " ++ "Mars/Nowhere"))) :=
  typed_resolution_failures exampleTzdb "queue-1" "INBOUND"
    (some (.aware 1731337200 0)) (some ⟨some "Mars/Nowhere", []⟩)
    exampleTzdb "queue-2" "INBOUND" "Mars/Nowhere" [] (.aware 0 0)
    (by decide) (by decide) (by decide) (by decide) (by decide) rfl

/-- Witness for C10 on the no-queue branch with a missing timestamp. -/
theorem missing_timestamp_crashes_witness :
    was_call_during_open_hours exampleTzdb none none "INBOUND" none
      = .error (.attributeError "isoformat")
    ∧ was_call_during_open_hours_backfill exampleTzdb none none "INBOUND" none
      = .error (.attributeError "isoformat")
    ∧ was_call_during_open_hours_backfill exampleTzdb (some "queue-2") none
        "INBOUND" (some ⟨some "America/Chicago", []⟩)
      = .error (.attributeError "tzinfo") :=
  missing_timestamp_crashes exampleTzdb exampleTzdb none "INBOUND" "INBOUND"
    none "queue-2" "America/Chicago" [] americaChicago2024
    (Or.inl rfl) (by decide) (by decide) (by decide) rfl
